import Mathlib

/-!
Shallow embedding of the `whisper` Anchor program
(`programs/whisper/src/lib.rs`): two account types (`ConfessionAccount`,
`CommentAccount`), three instruction handlers (`create_confession`,
`like_confession`, `comment_confession`), program-derived addresses
seeded by `"confession" + author` and `"comment" + confession + commenter`,
and the runtime's atomic commit of an instruction's writes.
-/

namespace Whisper

/-- A 32-byte public key, modelled abstractly as a natural number. -/
abbrev Pubkey := Nat

/-- Modelled from the spec: the Address Deriver (the program-derived-address
computation lives in the execution environment, not in `lib.rs`).  The spec
requires the derived address to be a deterministic, globally unique function of
the tag and seed keys, and distinct from every naturally-occurring key.
We realise this with a free construction: one constructor per seed shape, so
determinism and injectivity over the exact seed combination hold by
construction.  `wallet` is a naturally-occurring key address. -/
inductive Address where
  | wallet (k : Pubkey)
  | confessionPda (author : Pubkey)
  | commentPda (confession : Address) (commenter : Pubkey)
deriving DecidableEq, Repr

/-- `u64::MAX`. -/
def u64MAX : Nat := 18446744073709551615

/-- Rust `u64::checked_add` on values in range: `none` exactly when the
mathematical sum leaves the 64-bit range. -/
def checked_add (a b : Nat) : Option Nat :=
  if a + b ≤ u64MAX then some (a + b) else none

/-- `#[account] pub struct ConfessionAccount` from `lib.rs`.
`content_uri` is a Rust `String`; its `len()` is the UTF-8 byte size. -/
structure ConfessionAccount where
  author : Pubkey
  content_uri : String
  like_count : Nat
  comment_count : Nat
  timestamp : Int
  bump : Nat
deriving DecidableEq, Repr

/-- `ConfessionAccount::MAX_URI_LENGTH`. -/
def ConfessionAccount.MAX_URI_LENGTH : Nat := 200

/-- `ConfessionAccount::SPACE = 8 + 32 + 4 + MAX_URI_LENGTH + 8 + 8 + 8 + 1`. -/
def ConfessionAccount.SPACE : Nat :=
  8 + 32 + 4 + ConfessionAccount.MAX_URI_LENGTH + 8 + 8 + 8 + 1

/-- `#[account] pub struct CommentAccount` from `lib.rs`. -/
structure CommentAccount where
  confession : Address
  commenter : Pubkey
  content_uri : String
  timestamp : Int
  bump : Nat
deriving DecidableEq, Repr

/-- `CommentAccount::MAX_URI_LENGTH`. -/
def CommentAccount.MAX_URI_LENGTH : Nat := 200

/-- `CommentAccount::SPACE = 8 + 32 + 32 + 4 + MAX_URI_LENGTH + 8 + 1`. -/
def CommentAccount.SPACE : Nat :=
  8 + 32 + 32 + 4 + CommentAccount.MAX_URI_LENGTH + 8 + 1

/-- The data held at an occupied storage address. -/
inductive AccountData where
  | confession (c : ConfessionAccount)
  | comment (c : CommentAccount)
deriving DecidableEq, Repr

/-- `#[error_code] pub enum WhisperError` from `lib.rs`. -/
inductive WhisperError where
  | ContentUriTooLong
  | EmptyContentUri
  | LikeCountOverflow
  | CommentCountOverflow
deriving DecidableEq, Repr

/-- An instruction's failure: either a `WhisperError` raised by a handler, or a
structural failure surfaced by the execution environment while resolving the
declared accounts (`init` on an occupied address; a mutable typed account that
is missing or holds the wrong record type). -/
inductive ProgramError where
  | whisper (e : WhisperError)
  | accountAlreadyInUse
  | accountNotFound
deriving DecidableEq, Repr

/-- The flat keyed account space: what each address currently holds. -/
def Store := Address → Option AccountData

/-- Point update of the account space. -/
def Store.set (s : Store) (a : Address) (v : AccountData) : Store :=
  fun x => if x = a then some v else s x

/-- The account space with no program accounts. -/
def emptyStore : Store := fun _ => none

/-- The zero-initialised `ConfessionAccount` an `init` allocation holds before
the handler body writes it (all-zero key, empty string, zero counters). -/
def zeroConfession : ConfessionAccount :=
  { author := 0, content_uri := "", like_count := 0, comment_count := 0,
    timestamp := 0, bump := 0 }

/-- The zero-initialised `CommentAccount` an `init` allocation holds before
the handler body writes it. -/
def zeroComment : CommentAccount :=
  { confession := Address.wallet 0, commenter := 0, content_uri := "",
    timestamp := 0, bump := 0 }

/-- `create_confession`, as the uncommitted execution trace: the account store
after every write the environment and handler performed, paired with the error
(if any) that aborted the instruction.  Steps, in source order: the
`CreateConfession` context `init`s the confession account at the address
derived from seeds `["confession", author]` (failing if occupied); then the
handler checks `content_uri.len() <= MAX_URI_LENGTH`, checks
`!content_uri.is_empty()`, and writes `author`, `content_uri`,
`like_count = 0`, `comment_count = 0`, `timestamp = clock.unix_timestamp`,
`bump = ctx.bumps.confession`. -/
def create_confession (s : Store) (author : Pubkey) (content_uri : String)
    (now : Int) (bump : Nat) : Store × Option ProgramError :=
  let addr := Address.confessionPda author
  match s addr with
  | some _ => (s, some ProgramError.accountAlreadyInUse)
  | none =>
    let s1 := s.set addr (AccountData.confession zeroConfession)
    if ¬ content_uri.utf8ByteSize ≤ ConfessionAccount.MAX_URI_LENGTH then
      (s1, some (ProgramError.whisper WhisperError.ContentUriTooLong))
    else if content_uri.utf8ByteSize = 0 then
      (s1, some (ProgramError.whisper WhisperError.EmptyContentUri))
    else
      (s1.set addr (AccountData.confession
        { author := author, content_uri := content_uri, like_count := 0,
          comment_count := 0, timestamp := now, bump := bump }), none)

/-- `like_confession`, as the uncommitted execution trace.  The
`LikeConfession` context resolves an existing mutable `ConfessionAccount` and a
signer `user`; the handler sets
`like_count = like_count.checked_add(1).ok_or(LikeCountOverflow)?`.  The
handler body never reads `user`. -/
def like_confession (s : Store) (confAddr : Address) (user : Pubkey) :
    Store × Option ProgramError :=
  match s confAddr with
  | some (AccountData.confession c) =>
    match checked_add c.like_count 1 with
    | some n =>
      (s.set confAddr (AccountData.confession { c with like_count := n }), none)
    | none => (s, some (ProgramError.whisper WhisperError.LikeCountOverflow))
  | _ => (s, some ProgramError.accountNotFound)

/-- `comment_confession`, as the uncommitted execution trace.  Steps, in source
order: the `CommentConfession` context resolves the existing mutable
`ConfessionAccount` and `init`s the comment account at the address derived from
seeds `["comment", confession.key(), commenter.key()]` (failing if occupied);
then the handler checks `content_uri.len() <= MAX_URI_LENGTH`, checks
`!content_uri.is_empty()`, writes `confession`, `commenter`, `content_uri`,
`timestamp`, `bump` into the comment, and only after those writes sets
`comment_count = comment_count.checked_add(1).ok_or(CommentCountOverflow)?`
on the confession. -/
def comment_confession (s : Store) (confAddr : Address) (commenter : Pubkey)
    (content_uri : String) (now : Int) (bump : Nat) :
    Store × Option ProgramError :=
  match s confAddr with
  | some (AccountData.confession c) =>
    let caddr := Address.commentPda confAddr commenter
    match s caddr with
    | some _ => (s, some ProgramError.accountAlreadyInUse)
    | none =>
      let s1 := s.set caddr (AccountData.comment zeroComment)
      if ¬ content_uri.utf8ByteSize ≤ CommentAccount.MAX_URI_LENGTH then
        (s1, some (ProgramError.whisper WhisperError.ContentUriTooLong))
      else if content_uri.utf8ByteSize = 0 then
        (s1, some (ProgramError.whisper WhisperError.EmptyContentUri))
      else
        let s2 := s1.set caddr (AccountData.comment
          { confession := confAddr, commenter := commenter,
            content_uri := content_uri, timestamp := now, bump := bump })
        match checked_add c.comment_count 1 with
        | some n =>
          (s2.set confAddr (AccountData.confession
            { c with comment_count := n }), none)
        | none =>
          (s2, some (ProgramError.whisper WhisperError.CommentCountOverflow))
  | _ => (s, some ProgramError.accountNotFound)

/-- The environment's atomic application of an instruction: a trace that ends
in an error is discarded wholesale (the pre-state persists); a trace that ends
without error commits its final store. -/
def commit (pre : Store) (r : Store × Option ProgramError) : Store :=
  match r.2 with
  | none => r.1
  | some _ => pre

/-- Nesting depth of an address in the derivation tree. -/
def Address.depth : Address → Nat
  | Address.wallet _ => 0
  | Address.confessionPda _ => 0
  | Address.commentPda c _ => Address.depth c + 1

lemma Store.set_same (s : Store) (a : Address) (v : AccountData) :
    Store.set s a v a = some v := by
  simp [Store.set]

lemma Store.set_ne (s : Store) (a : Address) (v : AccountData) (x : Address)
    (h : x ≠ a) : Store.set s a v x = s x := by
  simp [Store.set, h]

lemma commentPda_ne_parent (a : Address) (k : Pubkey) :
    Address.commentPda a k ≠ a := by
  intro h
  have hd := congrArg Address.depth h
  simp [Address.depth] at hd

lemma commit_of_error (pre : Store) (r : Store × Option ProgramError)
    (e : ProgramError) (h : r.2 = some e) : commit pre r = pre := by
  unfold commit
  rw [h]

lemma commit_of_ok (pre : Store) (r : Store × Option ProgramError)
    (h : r.2 = none) : commit pre r = r.1 := by
  unfold commit
  rw [h]

/-- On a successful `create_confession`, the trace ends with the fully
initialized record at the derived address and the pre-state elsewhere, and the
derived address was free before. -/
lemma create_confession_ok_spec (s : Store) (author : Pubkey) (uri : String)
    (now : Int) (bump : Nat)
    (hok : (create_confession s author uri now bump).2 = none) :
    s (Address.confessionPda author) = none ∧
    (create_confession s author uri now bump).1 (Address.confessionPda author) =
      some (AccountData.confession
        { author := author, content_uri := uri, like_count := 0,
          comment_count := 0, timestamp := now, bump := bump }) ∧
    ∀ x, x ≠ Address.confessionPda author →
      (create_confession s author uri now bump).1 x = s x := by
  unfold create_confession at hok ⊢
  cases hocc : s (Address.confessionPda author) with
  | some v => simp [hocc] at hok
  | none =>
    simp only [hocc] at hok ⊢
    by_cases h1 : uri.utf8ByteSize ≤ ConfessionAccount.MAX_URI_LENGTH
    · by_cases h2 : uri.utf8ByteSize = 0
      · simp [h1, h2] at hok
      · simp only [h1, h2, not_true_eq_false, if_false, ite_false]
        refine ⟨trivial, ?_, ?_⟩
        · simp [Store.set]
        · intro x hx
          simp [Store.set, hx]
    · simp [h1] at hok

/-- `like_confession` on a confession whose counter is below `u64::MAX`:
no error, and the trace's final store is the point update of the counter. -/
lemma like_confession_step (s : Store) (a : Address) (u : Pubkey)
    (c : ConfessionAccount) (hc : s a = some (AccountData.confession c))
    (hlt : c.like_count < u64MAX) :
    (like_confession s a u).2 = none ∧
    (like_confession s a u).1 =
      Store.set s a (AccountData.confession
        { c with like_count := c.like_count + 1 }) := by
  have hadd : checked_add c.like_count 1 = some (c.like_count + 1) := by
    unfold checked_add
    rw [if_pos (by omega)]
  unfold like_confession
  simp only [hc, hadd]
  exact ⟨trivial, trivial⟩

/-- `n` consecutive committed `like_confession` calls against the same
confession address, each applied to the state the previous one left. -/
def iterate_like (n : Nat) (s : Store) (a : Address) (u : Pubkey) : Store :=
  match n with
  | 0 => s
  | Nat.succ m => iterate_like m (commit s (like_confession s a u)) a u

lemma iterate_like_count (u : Pubkey) (a : Address) :
    ∀ (n : Nat) (s : Store) (c : ConfessionAccount),
      s a = some (AccountData.confession c) →
      c.like_count + n ≤ u64MAX →
      iterate_like n s a u a =
        some (AccountData.confession
          { c with like_count := c.like_count + n }) := by
  intro n
  induction n with
  | zero =>
    intro s c hc _
    unfold iterate_like
    exact hc
  | succ m ih =>
    intro s c hc hle
    have hstep := like_confession_step s a u c hc (by omega)
    unfold iterate_like
    rw [commit_of_ok _ _ hstep.1, hstep.2]
    have hrw : c.like_count + (m + 1) = c.like_count + 1 + m := by omega
    rw [show ({ c with like_count := c.like_count + (m + 1) } : ConfessionAccount)
          = { c with like_count := c.like_count + 1 + m } by rw [hrw]]
    exact ih _ { c with like_count := c.like_count + 1 }
      (Store.set_same _ _ _) (by simp; omega)

/-- `comment_confession` against a confession whose `comment_count` is already
`u64::MAX` and a free comment address, with a valid URI: the handler writes the
comment record into the (uncommitted) trace and then aborts with
`CommentCountOverflow`. -/
lemma comment_confession_overflow_spec (s : Store) (a : Address) (k : Pubkey)
    (uri : String) (now : Int) (bump : Nat) (c : ConfessionAccount)
    (hc : s a = some (AccountData.confession c))
    (hfree : s (Address.commentPda a k) = none)
    (h1 : 1 ≤ uri.utf8ByteSize) (h2 : uri.utf8ByteSize ≤ 200)
    (hmax : c.comment_count = u64MAX) :
    (comment_confession s a k uri now bump).2 =
      some (ProgramError.whisper WhisperError.CommentCountOverflow) ∧
    (comment_confession s a k uri now bump).1 (Address.commentPda a k) =
      some (AccountData.comment
        { confession := a, commenter := k, content_uri := uri,
          timestamp := now, bump := bump }) := by
  have hadd : checked_add c.comment_count 1 = none := by
    unfold checked_add
    rw [hmax, if_neg (by unfold u64MAX; omega)]
  have h0 : ¬ uri.utf8ByteSize = 0 := by omega
  unfold comment_confession
  simp only [hc, hfree]
  simp [CommentAccount.MAX_URI_LENGTH, h2, h0, hadd, Store.set]

/-! Concrete fixtures used by the witness theorems. -/

/-- A freshly created confession record for author `1`. -/
def conf0 : ConfessionAccount :=
  { author := 1, content_uri := "a", like_count := 0, comment_count := 0,
    timestamp := 7, bump := 255 }

/-- A confession whose like counter sits at `u64::MAX`. -/
def confMaxLikes : ConfessionAccount := { conf0 with like_count := u64MAX }

/-- A confession whose comment counter sits at `u64::MAX`. -/
def confMaxComments : ConfessionAccount :=
  { conf0 with comment_count := u64MAX }

/-- A store holding only `conf0` at its derived address. -/
def store0 : Store :=
  Store.set emptyStore (Address.confessionPda 1) (AccountData.confession conf0)

/-- A store holding only `confMaxLikes` at its derived address. -/
def storeMaxLikes : Store :=
  Store.set emptyStore (Address.confessionPda 1)
    (AccountData.confession confMaxLikes)

/-- A store holding only `confMaxComments` at its derived address. -/
def storeMaxComments : Store :=
  Store.set emptyStore (Address.confessionPda 1)
    (AccountData.confession confMaxComments)

/-! The claims. -/

/-- Claim C9: the pre-allocated capacity of a Confession record is exactly 269
bytes and of a Comment record exactly 285 bytes, with a maximum URI length of
200 in both (`ConfessionAccount::SPACE`, `CommentAccount::SPACE`). -/
theorem record_space_constants :
    ConfessionAccount.SPACE = 269 ∧ CommentAccount.SPACE = 285 ∧
    ConfessionAccount.MAX_URI_LENGTH = 200 ∧
    CommentAccount.MAX_URI_LENGTH = 200 :=
  ⟨rfl, rfl, rfl, rfl⟩

/-- Claim C10: the outcome of `like_confession` — both the resulting trace and
the error component — is the same whichever signer performs it; the handler
never reads or records the `user` account. -/
theorem like_confession_signer_irrelevant (s : Store) (confAddr : Address)
    (u1 u2 : Pubkey) :
    like_confession s confAddr u1 = like_confession s confAddr u2 :=
  rfl

/-- Claim C4: `like_confession` on a confession whose `like_count` equals
`u64::MAX` fails with exactly `LikeCountOverflow`, and the committed post-state
equals the pre-state at every address (the record is unchanged). -/
theorem like_confession_at_max_fails (s : Store) (a : Address) (u : Pubkey)
    (c : ConfessionAccount) (hc : s a = some (AccountData.confession c))
    (hmax : c.like_count = u64MAX) :
    (like_confession s a u).2 =
      some (ProgramError.whisper WhisperError.LikeCountOverflow) ∧
    ∀ x, commit s (like_confession s a u) x = s x := by
  have hadd : checked_add c.like_count 1 = none := by
    unfold checked_add
    rw [hmax, if_neg (by unfold u64MAX; omega)]
  unfold like_confession
  simp only [hc, hadd]
  exact ⟨trivial, fun x => rfl⟩

/-- Witness for C4 at a concrete saturated store. -/
theorem like_confession_at_max_fails_witness :
    (like_confession storeMaxLikes (Address.confessionPda 1) 2).2 =
      some (ProgramError.whisper WhisperError.LikeCountOverflow) ∧
    ∀ x, commit storeMaxLikes
        (like_confession storeMaxLikes (Address.confessionPda 1) 2) x =
      storeMaxLikes x :=
  like_confession_at_max_fails storeMaxLikes (Address.confessionPda 1) 2
    confMaxLikes rfl rfl

/-- Claim C6: on success, `create_confession` initializes the new record with
`like_count = 0`, `comment_count = 0`, `author` = the signer's key,
`content_uri` = the argument, `timestamp` = the clock value at execution, and
the derivation bump stored in the record. -/
theorem create_confession_initializes (s : Store) (author : Pubkey)
    (uri : String) (now : Int) (bump : Nat)
    (hfree : s (Address.confessionPda author) = none)
    (h1 : 1 ≤ uri.utf8ByteSize) (h2 : uri.utf8ByteSize ≤ 200) :
    (create_confession s author uri now bump).2 = none ∧
    (create_confession s author uri now bump).1 (Address.confessionPda author) =
      some (AccountData.confession
        { author := author, content_uri := uri, like_count := 0,
          comment_count := 0, timestamp := now, bump := bump }) := by
  have h0 : ¬ uri.utf8ByteSize = 0 := by omega
  unfold create_confession
  simp only [hfree]
  simp [ConfessionAccount.MAX_URI_LENGTH, h2, h0, Store.set]

/-- Witness for C6 on the empty store. -/
theorem create_confession_initializes_witness :
    (create_confession emptyStore 1 "u" 7 255).2 = none ∧
    (create_confession emptyStore 1 "u" 7 255).1 (Address.confessionPda 1) =
      some (AccountData.confession
        { author := 1, content_uri := "u", like_count := 0,
          comment_count := 0, timestamp := 7, bump := 255 }) :=
  create_confession_initializes emptyStore 1 "u" 7 255 rfl (by decide)
    (by decide)

/-- Claim C3: `like_confession` on a confession with `like_count < u64::MAX`
succeeds and increments the counter by exactly 1; iterating it `n` times from a
fresh confession (`like_count = 0`) yields `like_count = n` for every
`n < u64::MAX`. -/
theorem like_confession_increments (s : Store) (a : Address) (u : Pubkey)
    (c : ConfessionAccount) (hc : s a = some (AccountData.confession c)) :
    (c.like_count < u64MAX →
      (like_confession s a u).2 = none ∧
      (like_confession s a u).1 a =
        some (AccountData.confession
          { c with like_count := c.like_count + 1 })) ∧
    (∀ n, c.like_count = 0 → n < u64MAX →
      iterate_like n s a u a =
        some (AccountData.confession { c with like_count := n })) := by
  constructor
  · intro hlt
    have h := like_confession_step s a u c hc hlt
    exact ⟨h.1, by rw [h.2]; exact Store.set_same _ _ _⟩
  · intro n h0 hn
    have h := iterate_like_count u a n s c hc (by omega)
    rw [h0] at h
    simpa using h

/-- Witness for C3: three likes on a fresh confession give `like_count = 3`. -/
theorem like_confession_increments_witness :
    iterate_like 3 store0 (Address.confessionPda 1) 2 (Address.confessionPda 1) =
      some (AccountData.confession { conf0 with like_count := 3 }) :=
  (like_confession_increments store0 (Address.confessionPda 1) 2 conf0
    rfl).2 3 rfl (by decide)

/-- Claim C5: with the derived address free, `create_confession` fails with
`EmptyContentUri` exactly when the URI's byte length is 0, with
`ContentUriTooLong` exactly when it exceeds 200, and succeeds exactly when the
length lies in `[1, 200]`. -/
theorem create_confession_validation (s : Store) (author : Pubkey)
    (uri : String) (now : Int) (bump : Nat)
    (hfree : s (Address.confessionPda author) = none) :
    ((create_confession s author uri now bump).2 =
        some (ProgramError.whisper WhisperError.EmptyContentUri) ↔
      uri.utf8ByteSize = 0) ∧
    ((create_confession s author uri now bump).2 =
        some (ProgramError.whisper WhisperError.ContentUriTooLong) ↔
      200 < uri.utf8ByteSize) ∧
    ((create_confession s author uri now bump).2 = none ↔
      1 ≤ uri.utf8ByteSize ∧ uri.utf8ByteSize ≤ 200) := by
  unfold create_confession
  simp only [hfree]
  unfold ConfessionAccount.MAX_URI_LENGTH
  by_cases h1 : uri.utf8ByteSize ≤ 200
  · by_cases h2 : uri.utf8ByteSize = 0
    · simp [h1, h2]
    · simp [h1, h2]
      omega
  · simp [h1]
    omega

/-- Witness for C5 at a length-1 URI on the empty store. -/
theorem create_confession_validation_witness :
    ((create_confession emptyStore 3 "x" 0 255).2 =
        some (ProgramError.whisper WhisperError.EmptyContentUri) ↔
      String.utf8ByteSize "x" = 0) ∧
    ((create_confession emptyStore 3 "x" 0 255).2 =
        some (ProgramError.whisper WhisperError.ContentUriTooLong) ↔
      200 < String.utf8ByteSize "x") ∧
    ((create_confession emptyStore 3 "x" 0 255).2 = none ↔
      1 ≤ String.utf8ByteSize "x" ∧ String.utf8ByteSize "x" ≤ 200) :=
  create_confession_validation emptyStore 3 "x" 0 255 rfl

/-- Claim C8: a successful `like_confession` changes nothing but the
`like_count`: every other address of the store is untouched, and every other
field of the confession record — author, content_uri, comment_count,
timestamp, bump — is preserved. -/
theorem like_confession_frame (s : Store) (a : Address) (u : Pubkey)
    (c : ConfessionAccount) (hc : s a = some (AccountData.confession c))
    (hok : (like_confession s a u).2 = none) :
    (∀ x, x ≠ a → (like_confession s a u).1 x = s x) ∧
    ∃ c2, (like_confession s a u).1 a = some (AccountData.confession c2) ∧
      c2.author = c.author ∧ c2.content_uri = c.content_uri ∧
      c2.comment_count = c.comment_count ∧ c2.timestamp = c.timestamp ∧
      c2.bump = c.bump := by
  have hlt : c.like_count < u64MAX := by
    by_contra hge
    have hadd : checked_add c.like_count 1 = none := by
      unfold checked_add
      rw [if_neg (by omega)]
    unfold like_confession at hok
    simp [hc, hadd] at hok
  have h := like_confession_step s a u c hc hlt
  refine ⟨fun x hx => by rw [h.2]; exact Store.set_ne _ _ _ _ hx,
    { c with like_count := c.like_count + 1 },
    by rw [h.2]; exact Store.set_same _ _ _, rfl, rfl, rfl, rfl, rfl⟩

/-- Witness for C8 on a fresh confession. -/
theorem like_confession_frame_witness :
    (∀ x, x ≠ Address.confessionPda 1 →
      (like_confession store0 (Address.confessionPda 1) 2).1 x = store0 x) ∧
    ∃ c2, (like_confession store0 (Address.confessionPda 1) 2).1
        (Address.confessionPda 1) = some (AccountData.confession c2) ∧
      c2.author = conf0.author ∧ c2.content_uri = conf0.content_uri ∧
      c2.comment_count = conf0.comment_count ∧
      c2.timestamp = conf0.timestamp ∧ c2.bump = conf0.bump :=
  like_confession_frame store0 (Address.confessionPda 1) 2 conf0 rfl
    (by decide)

/-- Claim C1: the confession address is a deterministic function of the author
alone, so after any successful `create_confession` for an author, a second
attempt by the same author — with any URI, clock value and bump — fails with
the already-exists condition and commits nothing: the first record (and the
whole store) is unchanged. -/
theorem one_confession_per_author (s : Store) (author : Pubkey)
    (uri uri2 : String) (now now2 : Int) (bump bump2 : Nat)
    (hok : (create_confession s author uri now bump).2 = none) :
    (create_confession (create_confession s author uri now bump).1
        author uri2 now2 bump2).2 = some ProgramError.accountAlreadyInUse ∧
    ∀ x, commit (create_confession s author uri now bump).1
        (create_confession (create_confession s author uri now bump).1
          author uri2 now2 bump2) x =
      (create_confession s author uri now bump).1 x := by
  obtain ⟨-, hpost, -⟩ := create_confession_ok_spec s author uri now bump hok
  set s1 := (create_confession s author uri now bump).1 with hs1
  have herr : (create_confession s1 author uri2 now2 bump2).2 =
      some ProgramError.accountAlreadyInUse := by
    unfold create_confession
    simp [hpost]
  exact ⟨herr, fun x => by rw [commit_of_error s1 _ _ herr]⟩

/-- Witness for C1: creating twice for author 1 from the empty store. -/
theorem one_confession_per_author_witness :
    (create_confession (create_confession emptyStore 1 "a" 0 255).1
        1 "b" 1 254).2 = some ProgramError.accountAlreadyInUse ∧
    ∀ x, commit (create_confession emptyStore 1 "a" 0 255).1
        (create_confession (create_confession emptyStore 1 "a" 0 255).1
          1 "b" 1 254) x =
      (create_confession emptyStore 1 "a" 0 255).1 x :=
  one_confession_per_author emptyStore 1 "a" "b" 0 1 255 254 (by decide)

/-- Claim C2: whenever any of the three operations ends in an error, the
committed state is the pre-state at every address; in particular when
`comment_confession` fails with `CommentCountOverflow`, the comment record the
handler had already written into the uncommitted trace is discarded — it is
not visible afterwards — and the parent confession is unchanged. -/
theorem errors_leave_state_unchanged :
    (∀ (s : Store) (author : Pubkey) (uri : String) (now : Int) (bump : Nat)
        (e : ProgramError),
      (create_confession s author uri now bump).2 = some e →
      ∀ x, commit s (create_confession s author uri now bump) x = s x) ∧
    (∀ (s : Store) (a : Address) (u : Pubkey) (e : ProgramError),
      (like_confession s a u).2 = some e →
      ∀ x, commit s (like_confession s a u) x = s x) ∧
    (∀ (s : Store) (a : Address) (k : Pubkey) (uri : String) (now : Int)
        (bump : Nat) (e : ProgramError),
      (comment_confession s a k uri now bump).2 = some e →
      ∀ x, commit s (comment_confession s a k uri now bump) x = s x) ∧
    (∀ (s : Store) (a : Address) (k : Pubkey) (uri : String) (now : Int)
        (bump : Nat) (c : ConfessionAccount),
      s a = some (AccountData.confession c) →
      s (Address.commentPda a k) = none →
      1 ≤ uri.utf8ByteSize → uri.utf8ByteSize ≤ 200 →
      c.comment_count = u64MAX →
      (comment_confession s a k uri now bump).2 =
        some (ProgramError.whisper WhisperError.CommentCountOverflow) ∧
      (comment_confession s a k uri now bump).1 (Address.commentPda a k) =
        some (AccountData.comment
          { confession := a, commenter := k, content_uri := uri,
            timestamp := now, bump := bump }) ∧
      commit s (comment_confession s a k uri now bump)
        (Address.commentPda a k) = none ∧
      commit s (comment_confession s a k uri now bump) a =
        some (AccountData.confession c)) := by
  refine ⟨?_, ?_, ?_, ?_⟩
  · intro s author uri now bump e h x
    rw [commit_of_error s _ e h]
  · intro s a u e h x
    rw [commit_of_error s _ e h]
  · intro s a k uri now bump e h x
    rw [commit_of_error s _ e h]
  · intro s a k uri now bump c hc hfree h1 h2 hmax
    obtain ⟨herr, hcomment⟩ :=
      comment_confession_overflow_spec s a k uri now bump c hc hfree h1 h2 hmax
    have hcommit := commit_of_error s _ _ herr
    exact ⟨herr, hcomment, by rw [hcommit]; exact hfree,
      by rw [hcommit]; exact hc⟩

/-- Witness for C2: an overflowing comment on a saturated confession is fully
rolled back. -/
theorem errors_leave_state_unchanged_witness :
    (comment_confession storeMaxComments (Address.confessionPda 1) 2
        "hi" 0 254).2 =
      some (ProgramError.whisper WhisperError.CommentCountOverflow) ∧
    (comment_confession storeMaxComments (Address.confessionPda 1) 2
        "hi" 0 254).1 (Address.commentPda (Address.confessionPda 1) 2) =
      some (AccountData.comment
        { confession := Address.confessionPda 1, commenter := 2,
          content_uri := "hi", timestamp := 0, bump := 254 }) ∧
    commit storeMaxComments
      (comment_confession storeMaxComments (Address.confessionPda 1) 2
        "hi" 0 254) (Address.commentPda (Address.confessionPda 1) 2) = none ∧
    commit storeMaxComments
      (comment_confession storeMaxComments (Address.confessionPda 1) 2
        "hi" 0 254) (Address.confessionPda 1) =
      some (AccountData.confession confMaxComments) :=
  errors_leave_state_unchanged.2.2.2 storeMaxComments (Address.confessionPda 1)
    2 "hi" 0 254 confMaxComments rfl rfl (by decide) (by decide) rfl

/-- Claim C7: on success, `comment_confession` initializes the comment record
with the parent confession's address, the commenter's key, the URI, the clock
value and the bump, and increments the parent's `comment_count` by exactly 1;
with `comment_count` already at `u64::MAX` it fails with
`CommentCountOverflow`. -/
theorem comment_confession_effects (s : Store) (a : Address) (k : Pubkey)
    (uri : String) (now : Int) (bump : Nat) (c : ConfessionAccount)
    (hc : s a = some (AccountData.confession c))
    (hfree : s (Address.commentPda a k) = none)
    (h1 : 1 ≤ uri.utf8ByteSize) (h2 : uri.utf8ByteSize ≤ 200) :
    (c.comment_count < u64MAX →
      (comment_confession s a k uri now bump).2 = none ∧
      (comment_confession s a k uri now bump).1 (Address.commentPda a k) =
        some (AccountData.comment
          { confession := a, commenter := k, content_uri := uri,
            timestamp := now, bump := bump }) ∧
      (comment_confession s a k uri now bump).1 a =
        some (AccountData.confession
          { c with comment_count := c.comment_count + 1 })) ∧
    (c.comment_count = u64MAX →
      (comment_confession s a k uri now bump).2 =
        some (ProgramError.whisper WhisperError.CommentCountOverflow)) := by
  have h0 : ¬ uri.utf8ByteSize = 0 := by omega
  constructor
  · intro hlt
    have hadd : checked_add c.comment_count 1 = some (c.comment_count + 1) := by
      unfold checked_add
      rw [if_pos (by omega)]
    have hne := commentPda_ne_parent a k
    unfold comment_confession
    simp only [hc, hfree]
    simp [CommentAccount.MAX_URI_LENGTH, h2, h0, hadd, Store.set, hne]
  · intro hmax
    exact (comment_confession_overflow_spec s a k uri now bump
      c hc hfree h1 h2 hmax).1

/-- Witness for C7: commenting on a fresh confession. -/
theorem comment_confession_effects_witness :
    (comment_confession store0 (Address.confessionPda 1) 2 "hi" 5 254).2 =
      none ∧
    (comment_confession store0 (Address.confessionPda 1) 2 "hi" 5 254).1
        (Address.commentPda (Address.confessionPda 1) 2) =
      some (AccountData.comment
        { confession := Address.confessionPda 1, commenter := 2,
          content_uri := "hi", timestamp := 5, bump := 254 }) ∧
    (comment_confession store0 (Address.confessionPda 1) 2 "hi" 5 254).1
        (Address.confessionPda 1) =
      some (AccountData.confession
        { conf0 with comment_count := conf0.comment_count + 1 }) :=
  (comment_confession_effects store0 (Address.confessionPda 1) 2 "hi" 5 254
    conf0 rfl rfl (by decide) (by decide)).1 (by decide)

end Whisper
